import Mathlib

/-!
# Verification of the transcript accumulation logic of `src/App.tsx`

Shallow embedding of the React component in `src/App.tsx`
(Real-time-audio-transcription).  The component state
(`isListening`, `transcript`, `language`, `error`, `isCopied`) together with
the refs (`transcriptAtSessionStart`, `recognitionRef`) is modelled as a
record `AppState`; every event handler of the component becomes a pure
function on `AppState`.  Commands issued to the platform speech-recognition
capability (`recognition.start()` / `recognition.stop()`) are returned
explicitly as a list of `AdapterCmd`s, and the clipboard write performed by
`handleCopy` is returned as an `Option String`.
-/

namespace SpeechApp

/-- One entry of `event.results`: the code reads `event.results[i].isFinal`
and `event.results[i][0].transcript`, so only the text of the first alternative
is modelled. -/
structure SpeechResult where
  isFinal : Bool
  transcript : String
deriving DecidableEq, Repr

/-- A `result` event of the speech-recognition capability: the full result
list of the session so far, plus `event.resultIndex`, the index at which the
`for` loop of the handler starts scanning. -/
structure ResultEvent where
  resultIndex : Nat
  results : List SpeechResult
deriving DecidableEq, Repr

/-- Commands the component issues to the recognition capability. -/
inductive AdapterCmd where
  | start
  | stop
deriving DecidableEq, Repr

/-- The component state of `App`.  React `useState` pieces are
`isListening`, `transcript`, `language`, `error`, `isCopied`; the mutable
refs are `transcriptAtSessionStart` (a string) and `recognitionRef`,
modelled by the Boolean `recognitionAvailable` (`true` iff
`recognitionRef.current` is non-null, i.e. the capability existed at
initialization). -/
structure AppState where
  isListening : Bool
  transcript : String
  language : String
  error : Option String
  isCopied : Bool
  transcriptAtSessionStart : String
  recognitionAvailable : Bool
deriving DecidableEq, Repr

/-- JavaScript `String.prototype.trim()`: drop whitespace from both ends.
Translated as list operations on the character data so that concrete
instances evaluate in the kernel. -/
def jsTrim (s : String) : String :=
  ⟨((s.data.dropWhile Char.isWhitespace).reverse.dropWhile Char.isWhitespace).reverse⟩

/-- The error message set by the capability check in the `useEffect`:
`"Speech recognition is not supported in this browser. ..."`. -/
def unsupportedMessage : String :=
  "Speech recognition is not supported in this browser. Please try Chrome or Edge."

/-- The `recognition.onerror` message table (lines 97-107 of `App.tsx`). -/
def errorMessage (code : String) : String :=
  if code = "no-speech" then
    "No speech was detected. Please try again."
  else if code = "audio-capture" then
    "Microphone is not available. Please check your microphone settings."
  else if code = "not-allowed" then
    "Permission to use microphone was denied. Please allow microphone access in your browser settings."
  else
    "An error occurred: " ++ code

/-- Initial component state after the first render and the initial
`useEffect` run: all `useState` initializers, plus the capability check —
if the capability is absent, `setError(unsupportedMessage)` runs and
`recognitionRef` stays null. -/
def initApp (capabilityAvailable : Bool) : AppState :=
  { isListening := false
    transcript := ""
    language := "en-US"
    error := if capabilityAvailable then none else some unsupportedMessage
    isCopied := false
    transcriptAtSessionStart := ""
    recognitionAvailable := capabilityAvailable }

/-- `recognition.onstart`: `setIsListening(true); setError(null)`. -/
def onstart (s : AppState) : AppState :=
  { s with isListening := true, error := none }

/-- `recognition.onend`: `setIsListening(false)`. -/
def onend (s : AppState) : AppState :=
  { s with isListening := false }

/-- `recognition.onerror`: sets the error message for the code carried by the event. -/
def onerror (s : AppState) (code : String) : AppState :=
  { s with error := some (errorMessage code) }

/-- The body of the `for` loop of `recognition.onresult`, applied to the
scanned window `results[resultIndex ..]`: entries with `isFinal` are
concatenated (in index order) into the first component
(`sessionFinalTranscript`), the others into the second
(`sessionInterimTranscript`). -/
def collect : List SpeechResult → String × String
  | [] => ("", "")
  | r :: rest =>
    let p := collect rest
    if r.isFinal then (r.transcript ++ p.1, p.2) else (p.1, r.transcript ++ p.2)

/-- `recognition.onresult` (lines 109-122 of `App.tsx`): scan
`event.results` from `event.resultIndex`, accumulate finals and interims in
two local strings, and set
`transcript := transcriptAtSessionStart + finals + interims`. -/
def onresult (s : AppState) (ev : ResultEvent) : AppState :=
  let p := collect (ev.results.drop ev.resultIndex)
  { s with transcript := s.transcriptAtSessionStart ++ p.1 ++ p.2 }

/-- Fold a whole sequence of `result` events into the state. -/
def foldBatches (s : AppState) (evs : List ResultEvent) : AppState :=
  evs.foldl onresult s

/-- `handleToggleListening` (lines 137-145): while listening, issue
`stop()`; otherwise snapshot
`transcriptAtSessionStart := transcript.trim() + single space` when the
trimmed transcript is non-empty, and to the empty string otherwise,
and issue `start()`.  The optional-chaining calls
`recognitionRef.current?.start()` / `?.stop()` issue no command when the
ref is null. -/
def handleToggleListening (s : AppState) : AppState × List AdapterCmd :=
  if s.isListening then
    (s, if s.recognitionAvailable then [AdapterCmd.stop] else [])
  else
    let currentTranscript := jsTrim s.transcript
    ({ s with transcriptAtSessionStart :=
        if currentTranscript = "" then "" else currentTranscript ++ " " },
     if s.recognitionAvailable then [AdapterCmd.start] else [])

/-- `handleCopy` (lines 147-153): if the transcript is truthy (non-empty),
write it to the clipboard and set `isCopied`; otherwise do nothing.  The
clipboard write is the second component. -/
def handleCopy (s : AppState) : AppState × Option String :=
  if s.transcript = "" then
    (s, none)
  else
    ({ s with isCopied := true }, some s.transcript)

/-- `handleClear` (lines 155-158): unconditionally reset the transcript and
the session-start snapshot. -/
def handleClear (s : AppState) : AppState :=
  { s with transcript := "", transcriptAtSessionStart := "" }

/-- The `disabled` attribute of the clear button (line 210):
`!transcript || isListening`. -/
def clearButtonDisabled (s : AppState) : Bool :=
  s.transcript = "" || s.isListening

/-- The clear operation as reachable through the UI: a disabled button
never fires its `onClick`, so `handleClear` runs only when the button is
enabled. -/
def clearViaUI (s : AppState) : AppState :=
  if clearButtonDisabled s then s else handleClear s

/-- The `onChange` handler of the language select (line 183):
`setLanguage(e.target.value)`, with no guard of its own. -/
def languageSelectOnChange (s : AppState) (newLang : String) : AppState :=
  { s with language := newLang }

/-- The `disabled` attribute of the language select (line 186):
`isListening`. -/
def languageSelectDisabled (s : AppState) : Bool :=
  s.isListening

/-- A language change as reachable through the UI: a disabled select fires
no `onChange`. -/
def languageChangeViaUI (s : AppState) (newLang : String) : AppState :=
  if languageSelectDisabled s then s else languageSelectOnChange s newLang

/-- The transcript the accumulator algorithm of the spec would display.
Modelled from the words of the spec (section 4.2): a session-scoped
`finalizedSoFar` string to which the finalized entries of each batch are
appended, an `interim` string fully replaced on every batch, and a
displayed transcript `baseText + finalizedSoFar + interim`.  Used only to
compare the claimed invariant of the spec with the actual fold of the code. -/
def specAccumStep (acc : String × String) (ev : ResultEvent) : String × String :=
  let p := collect (ev.results.drop ev.resultIndex)
  (acc.1 ++ p.1, p.2)

/-- Displayed transcript after folding `evs` per the description in the spec
(`baseText + finalizedSoFar + interim`). -/
def specTranscript (baseText : String) (evs : List ResultEvent) : String :=
  let acc := evs.foldl specAccumStep ("", "")
  baseText ++ acc.1 ++ acc.2

/-- The base-text computation exactly as claim C2 words it: the previous
transcript trimmed of *trailing* whitespace only, with one trailing space
appended if non-empty.  Modelled from the words of claim C2, to compare
with `jsTrim` from the code (which also strips leading whitespace). -/
def claimedBaseText (prev : String) : String :=
  let t : String := ⟨(prev.data.reverse.dropWhile Char.isWhitespace).reverse⟩
  if t = "" then "" else t ++ " "


/-! ## Helper lemmas -/

/-- Concatenation of strings concatenates their character data. -/
theorem string_data_append (a b : String) : (a ++ b).data = a.data ++ b.data :=
  rfl

/-- Appending to a common left part is injective on the right part. -/
theorem string_append_right_ne (a : String) {b c : String}
    (h : b.data ≠ c.data) : a ++ b ≠ a ++ c := by
  intro hab
  apply h
  have hd : a.data ++ b.data = a.data ++ c.data := by
    have := congrArg String.data hab
    rwa [string_data_append, string_data_append] at this
  exact List.append_cancel_left hd

/-- No generic adapter-error message equals the capability-unavailable
message: the former always starts with the character A, the latter with S. -/
theorem genericMessage_ne_unsupported (code : String) :
    ("An error occurred: " ++ code) ≠ unsupportedMessage := by
  intro h
  have h1 : ("An error occurred: " ++ code).data = unsupportedMessage.data :=
    congrArg String.data h
  rw [string_data_append] at h1
  have h2 : ("An error occurred: " : String).data
      = 'A' :: ("n error occurred: " : String).data := by decide
  have h3 : unsupportedMessage.data
      = 'S' :: ("peech recognition is not supported in this browser. Please try Chrome or Edge." : String).data := by
    decide
  rw [h2, h3] at h1
  simp only [List.cons_append, List.cons.injEq] at h1
  exact absurd h1.1 (by decide)

/-- Folding result events never changes the session-start snapshot. -/
theorem foldl_onresult_sessionStart (evs : List ResultEvent) (s : AppState) :
    (evs.foldl onresult s).transcriptAtSessionStart = s.transcriptAtSessionStart := by
  induction evs generalizing s with
  | nil => rfl
  | cons e rest ih => exact (ih (onresult s e)).trans rfl

/-! ## C1 -/

/-- C1 counterexample: the claimed invariant
`transcript = baseText ++ finalizedSoFar ++ interim` (with a session-scoped
`finalizedSoFar` accumulator, as computed by `specTranscript`) fails on the
code.  Session with base `""`: batch 1 finalizes `"hello "` at index 0;
batch 2 starts at index 1 with interim `"wor"`.  The code displays `"wor"`,
while the claim demands `"hello wor"` — the finalized text of batch 1 is
lost because the scanning window of batch 2 starts past it. -/
theorem C1_counterexample :
    (foldBatches (initApp true)
        [⟨0, [⟨true, "hello "⟩]⟩, ⟨1, [⟨true, "hello "⟩, ⟨false, "wor"⟩]⟩]).transcript
      = "wor"
    ∧ specTranscript (initApp true).transcriptAtSessionStart
        [⟨0, [⟨true, "hello "⟩]⟩, ⟨1, [⟨true, "hello "⟩, ⟨false, "wor"⟩]⟩]
      = "hello wor"
    ∧ (foldBatches (initApp true)
        [⟨0, [⟨true, "hello "⟩]⟩, ⟨1, [⟨true, "hello "⟩, ⟨false, "wor"⟩]⟩]).transcript
      ≠ specTranscript (initApp true).transcriptAtSessionStart
        [⟨0, [⟨true, "hello "⟩]⟩, ⟨1, [⟨true, "hello "⟩, ⟨false, "wor"⟩]⟩] := by
  refine ⟨rfl, rfl, ?_⟩
  decide

/-- C1 (amended): after each batch the displayed transcript equals the
session base text followed by the finalized entries of that batch within
its scanned window, followed by the interim entries of that window; there
is no session-scoped finalized accumulator, so finalized text from earlier
batches is retained only insofar as it lies inside the scanned window of
the latest batch. -/
theorem C1_amended (s : AppState) (evs : List ResultEvent) (ev : ResultEvent) :
    (foldBatches s (evs ++ [ev])).transcript
      = s.transcriptAtSessionStart
        ++ (collect (ev.results.drop ev.resultIndex)).1
        ++ (collect (ev.results.drop ev.resultIndex)).2 := by
  show ((evs ++ [ev]).foldl onresult s).transcript = _
  rw [List.foldl_append, List.foldl_cons, List.foldl_nil]
  show (evs.foldl onresult s).transcriptAtSessionStart ++ _ ++ _ = _
  rw [foldl_onresult_sessionStart]

/-! ## C2 -/

/-- C2 counterexample: the claim says the new base text is the previous
transcript trimmed of *trailing* whitespace (plus one space), but the code
calls `trim()`, which also strips *leading* whitespace.  Starting a session
from transcript `" hi"` yields base text `"hi "`, while the claim demands
`" hi "`. -/
theorem C2_counterexample :
    ((handleToggleListening { initApp true with transcript := " hi" }).1).transcriptAtSessionStart
      = "hi "
    ∧ claimedBaseText " hi" = " hi "
    ∧ ((handleToggleListening { initApp true with transcript := " hi" }).1).transcriptAtSessionStart
      ≠ claimedBaseText " hi" := by
  refine ⟨by decide, by decide, by decide⟩

/-- C2 (amended): starting a new session while not listening sets the base
text to the previous displayed transcript trimmed of leading *and* trailing
whitespace, with exactly one trailing space appended if non-empty, and to
the empty string otherwise; consequently transcript `"hello"`, then stop,
then start, then a final result `"world"` yields exactly `"hello world"`. -/
theorem C2_amended (s : AppState) (h : s.isListening = false) :
    ((handleToggleListening s).1).transcriptAtSessionStart
      = (if jsTrim s.transcript = "" then "" else jsTrim s.transcript ++ " ")
    ∧ (onresult
        ((handleToggleListening
          (onend ((handleToggleListening
            (onresult (onstart ((handleToggleListening (initApp true)).1))
              ⟨0, [⟨true, "hello"⟩]⟩)).1))).1)
        ⟨0, [⟨true, "world"⟩]⟩).transcript = "hello world" := by
  constructor
  · simp [handleToggleListening, h]
  · decide

/-- Witness for `C2_amended` at the concrete state with transcript
`"hello"`. -/
theorem C2_amended_witness :
    ({ initApp true with transcript := "hello" } : AppState).isListening = false
    ∧ (((handleToggleListening { initApp true with transcript := "hello" }).1).transcriptAtSessionStart
        = (if jsTrim ({ initApp true with transcript := "hello" } : AppState).transcript = ""
           then "" else jsTrim ({ initApp true with transcript := "hello" } : AppState).transcript ++ " ")
      ∧ (onresult
          ((handleToggleListening
            (onend ((handleToggleListening
              (onresult (onstart ((handleToggleListening (initApp true)).1))
                ⟨0, [⟨true, "hello"⟩]⟩)).1))).1)
          ⟨0, [⟨true, "world"⟩]⟩).transcript = "hello world") :=
  ⟨rfl, C2_amended { initApp true with transcript := "hello" } rfl⟩

/-! ## C3 -/

/-- C3 counterexample: a batch whose scanned window is empty is *not* an
identity of the fold.  After an interim `"hel"` the transcript is `"hel"`;
folding an empty batch resets the transcript to the (empty) base text,
discarding the interim text. -/
theorem C3_counterexample :
    (onresult (onstart ((handleToggleListening (initApp true)).1))
        ⟨0, [⟨false, "hel"⟩]⟩).transcript = "hel"
    ∧ (onresult
        (onresult (onstart ((handleToggleListening (initApp true)).1))
          ⟨0, [⟨false, "hel"⟩]⟩)
        ⟨0, []⟩).transcript = ""
    ∧ (onresult
        (onresult (onstart ((handleToggleListening (initApp true)).1))
          ⟨0, [⟨false, "hel"⟩]⟩)
        ⟨0, []⟩).transcript
      ≠ (onresult (onstart ((handleToggleListening (initApp true)).1))
          ⟨0, [⟨false, "hel"⟩]⟩).transcript := by
  refine ⟨by decide, by decide, by decide⟩

/-- C3 (amended): folding a batch with no entries in its scanned window
sets the displayed transcript to the session base text; it leaves the
transcript unchanged only when the transcript already equals the base
text. -/
theorem C3_amended (s : AppState) (ev : ResultEvent)
    (h : ev.results.drop ev.resultIndex = []) :
    (onresult s ev).transcript = s.transcriptAtSessionStart := by
  simp [onresult, h, collect]

/-- Witness for `C3_amended` at the empty batch from the initial state. -/
theorem C3_amended_witness :
    (([] : List SpeechResult).drop 0 = [])
    ∧ (onresult (initApp true) ⟨0, []⟩).transcript
        = (initApp true).transcriptAtSessionStart :=
  ⟨rfl, C3_amended (initApp true) ⟨0, []⟩ rfl⟩

/-! ## C4 -/

/-- C4: interim text is fully replaced across batches.  For any state, a
batch with interim `"hel"` at index 0 followed by a batch with interim
`"hello"` at index 0 leaves the interim portion exactly `"hello"`: the
transcript is the base text followed by `"hello"`, and in particular never
the base text followed by `"helhello"`. -/
theorem C4_interim_replace (s : AppState) :
    (onresult (onresult s ⟨0, [⟨false, "hel"⟩]⟩) ⟨0, [⟨false, "hello"⟩]⟩).transcript
      = s.transcriptAtSessionStart ++ "hello"
    ∧ (onresult (onresult s ⟨0, [⟨false, "hel"⟩]⟩) ⟨0, [⟨false, "hello"⟩]⟩).transcript
      ≠ s.transcriptAtSessionStart ++ "helhello" := by
  have h1 : (onresult (onresult s ⟨0, [⟨false, "hel"⟩]⟩) ⟨0, [⟨false, "hello"⟩]⟩).transcript
      = s.transcriptAtSessionStart ++ "hello" := by
    show s.transcriptAtSessionStart ++ "" ++ ("hello" ++ "") = _
    simp
  refine ⟨h1, ?_⟩
  rw [h1]
  exact string_append_right_ne s.transcriptAtSessionStart (by decide)

/-! ## C5 -/

/-- C5 counterexample: the Controller itself does not reject `clear()`
while listening — `handleClear` is unguarded.  In a listening state with
transcript `"abc"`, invoking `handleClear` empties the transcript. -/
theorem C5_counterexample :
    (onresult (onstart (initApp true)) ⟨0, [⟨true, "abc"⟩]⟩).isListening = true
    ∧ (onresult (onstart (initApp true)) ⟨0, [⟨true, "abc"⟩]⟩).transcript = "abc"
    ∧ (handleClear (onresult (onstart (initApp true)) ⟨0, [⟨true, "abc"⟩]⟩)).transcript
      ≠ (onresult (onstart (initApp true)) ⟨0, [⟨true, "abc"⟩]⟩).transcript := by
  refine ⟨rfl, by decide, by decide⟩

/-- C5 (amended): the rejection is enforced by the Presentation Layer, not
the Controller: the clear button is disabled while listening or while the
transcript is empty, so the clear operation reachable through the UI is a
no-op in those states (transcript and base text unchanged); the unguarded
`handleClear` itself would reset both unconditionally. -/
theorem C5_amended (s : AppState)
    (h : s.isListening = true ∨ s.transcript = "") :
    clearViaUI s = s := by
  rcases h with h | h <;> simp [clearViaUI, clearButtonDisabled, h]

/-- Witness for `C5_amended` at a listening state with transcript
`"abc"`. -/
theorem C5_amended_witness :
    ((onresult (onstart (initApp true)) ⟨0, [⟨true, "abc"⟩]⟩).isListening = true
      ∨ (onresult (onstart (initApp true)) ⟨0, [⟨true, "abc"⟩]⟩).transcript = "")
    ∧ clearViaUI (onresult (onstart (initApp true)) ⟨0, [⟨true, "abc"⟩]⟩)
        = onresult (onstart (initApp true)) ⟨0, [⟨true, "abc"⟩]⟩ :=
  ⟨Or.inl rfl,
   C5_amended (onresult (onstart (initApp true)) ⟨0, [⟨true, "abc"⟩]⟩) (Or.inl rfl)⟩

/-! ## C6 -/

/-- C6: adapter error events never discard accumulated transcript text.
For every state and every error code, handling the error event and the
subsequent session-end event leaves the transcript, the session base text,
the language and the copied flag unchanged; only the status (error message
and listening flag) changes. -/
theorem C6_error_nondestructive (s : AppState) (code : String) :
    (onend (onerror s code)).transcript = s.transcript
    ∧ (onend (onerror s code)).transcriptAtSessionStart = s.transcriptAtSessionStart
    ∧ (onend (onerror s code)).language = s.language
    ∧ (onend (onerror s code)).isCopied = s.isCopied
    ∧ (onend (onerror s code)).error = some (errorMessage code)
    ∧ (onend (onerror s code)).isListening = false :=
  ⟨rfl, rfl, rfl, rfl, rfl, rfl⟩

/-! ## C7 -/

/-- C7 counterexample: the Controller itself applies a language change even
while listening — the `onChange` handler is an unguarded `setLanguage`.  In
a listening state the handler changes the language from `"en-US"` to
`"fr-FR"`. -/
theorem C7_counterexample :
    (onstart (initApp true)).isListening = true
    ∧ (languageSelectOnChange (onstart (initApp true)) "fr-FR").language
      ≠ (onstart (initApp true)).language := by
  refine ⟨rfl, by decide⟩

/-- C7 (amended): a language change while listening is prevented only by
the Presentation Layer disabling the select control; the language change
reachable through the UI leaves the state (in particular the language)
unchanged while listening, but the `onChange` handler itself carries no
guard. -/
theorem C7_amended (s : AppState) (newLang : String)
    (h : s.isListening = true) :
    languageChangeViaUI s newLang = s := by
  simp [languageChangeViaUI, languageSelectDisabled, h]

/-- Witness for `C7_amended` at a listening state. -/
theorem C7_amended_witness :
    (onstart (initApp true)).isListening = true
    ∧ languageChangeViaUI (onstart (initApp true)) "fr-FR" = onstart (initApp true) :=
  ⟨rfl, C7_amended (onstart (initApp true)) "fr-FR" rfl⟩

/-! ## C8 -/

/-- C8: when the platform capability is absent at initialization, the
component sets the persistent unsupported-browser error once, this message
differs from every transient adapter-error message, the recognition ref
stays null, and `handleToggleListening` on any state whose recognition ref
is null issues no adapter command at all (in particular no `start`). -/
theorem C8_capability_absent (s : AppState) (code : String)
    (h : s.recognitionAvailable = false) :
    (initApp false).error = some unsupportedMessage
    ∧ (initApp false).recognitionAvailable = false
    ∧ errorMessage code ≠ unsupportedMessage
    ∧ (handleToggleListening s).2 = [] := by
  refine ⟨rfl, rfl, ?_, ?_⟩
  · unfold errorMessage
    split
    · decide
    · split
      · decide
      · split
        · decide
        · exact genericMessage_ne_unsupported code
  · cases hb : s.isListening <;> simp [handleToggleListening, hb, h]

/-- Witness for `C8_capability_absent` at the capability-absent initial
state and the raw error code `"network"`. -/
theorem C8_capability_absent_witness :
    (initApp false).recognitionAvailable = false
    ∧ ((initApp false).error = some unsupportedMessage
       ∧ (initApp false).recognitionAvailable = false
       ∧ errorMessage "network" ≠ unsupportedMessage
       ∧ (handleToggleListening (initApp false)).2 = []) :=
  ⟨rfl, C8_capability_absent (initApp false) "network" rfl⟩

/-! ## C9 -/

/-- C9: a permitted clear (not listening, transcript non-empty) resets all
transcript state: the transcript becomes empty, and a session started
afterwards without intervening results snapshots an empty base text rather
than the pre-clear text. -/
theorem C9_clear_resets (s : AppState) (h1 : s.isListening = false)
    (_h2 : s.transcript ≠ "") :
    (handleClear s).transcript = ""
    ∧ ((handleToggleListening (handleClear s)).1).transcriptAtSessionStart = "" := by
  refine ⟨rfl, ?_⟩
  have hj : jsTrim ("" : String) = "" := rfl
  simp [handleToggleListening, handleClear, h1, hj]

/-- Witness for `C9_clear_resets` at a non-listening state with transcript
`"abc"`. -/
theorem C9_clear_resets_witness :
    ({ initApp true with transcript := "abc" } : AppState).isListening = false
    ∧ ({ initApp true with transcript := "abc" } : AppState).transcript ≠ ""
    ∧ ((handleClear { initApp true with transcript := "abc" }).transcript = ""
       ∧ ((handleToggleListening
            (handleClear { initApp true with transcript := "abc" })).1).transcriptAtSessionStart
          = "") :=
  ⟨rfl, by decide,
   C9_clear_resets { initApp true with transcript := "abc" } rfl (by decide)⟩

/-! ## C10 -/

/-- C10: with a non-empty transcript, `handleCopy` writes exactly the
current transcript to the clipboard, sets the copied flag and leaves the
transcript unchanged; with an empty transcript, it issues no clipboard
write and returns the state completely unchanged (in particular the copied
flag is not set). -/
theorem C10_copy (s : AppState) (h : s.transcript ≠ "") :
    (handleCopy s).2 = some s.transcript
    ∧ ((handleCopy s).1).isCopied = true
    ∧ ((handleCopy s).1).transcript = s.transcript
    ∧ (handleCopy { s with transcript := "" }).2 = none
    ∧ (handleCopy { s with transcript := "" }).1 = { s with transcript := "" } := by
  refine ⟨?_, ?_, ?_, ?_, ?_⟩ <;> simp [handleCopy, h]

/-- Witness for `C10_copy` at a state with transcript `"abc"`. -/
theorem C10_copy_witness :
    ({ initApp true with transcript := "abc" } : AppState).transcript ≠ ""
    ∧ ((handleCopy { initApp true with transcript := "abc" }).2
        = some ({ initApp true with transcript := "abc" } : AppState).transcript
      ∧ ((handleCopy { initApp true with transcript := "abc" }).1).isCopied = true
      ∧ ((handleCopy { initApp true with transcript := "abc" }).1).transcript
          = ({ initApp true with transcript := "abc" } : AppState).transcript
      ∧ (handleCopy { ({ initApp true with transcript := "abc" } : AppState) with transcript := "" }).2 = none
      ∧ (handleCopy { ({ initApp true with transcript := "abc" } : AppState) with transcript := "" }).1
          = { ({ initApp true with transcript := "abc" } : AppState) with transcript := "" }) :=
  ⟨by decide, C10_copy { initApp true with transcript := "abc" } (by decide)⟩

end SpeechApp
